import Mathlib

/-! Verification of the EVReadyWizard charging arithmetic.

Shallow embedding of the pure logic of the `evreadycheckv1` repository
(the `EVReadyWizard` component variants).  JavaScript numbers are modelled
by `ℚ`; the JS `Math.round` is the Mathlib function `round` (both are
`⌊x + 1/2⌋`),
`Math.ceil` is `Int.ceil`, `Math.min`/`Math.max` are `min`/`max`.
All integer-producing JS expressions are given the type `ℤ`.
-/

namespace EVReady

/-- Charger level (`"L1" | "L2"`). -/
inductive HomeLevel where
  | L1
  | L2
deriving DecidableEq, Repr

/-- Answer to the plug question (`"yes" | "no"`; `null` is `Option.none`). -/
inductive PlugAns where
  | yes
  | no
deriving DecidableEq, Repr

/-- Result record of `calcChargePlan` (all four fields are `Math.round`ed
in the source, hence integers). -/
structure ChargePlan where
  mph : ℤ
  weeklyNeed : ℤ
  weeklyHomeSupply : ℤ
  weeklyShortfall : ℤ
deriving DecidableEq, Repr

/-- Source function `calcChargePlan` from `src/unnamed/part_001` (also duplicated in
`src/src/components/EVReadyWizard.tsx` and `src/unnamed/part_002` /
`part_003`).  Optional arguments are passed explicitly; the source
defaults are `weekdayOvernightHours = 9`, `weekendOvernightHours = 16`,
`l1MilesPerHour = 4`, `l2MilesPerHour = 25`, `weekdayNightsPluggedIn = 5`,
`weekendNightsPluggedIn = 2` (see `calcChargePlanDefaults`). -/
def calcChargePlan
    (weekdayMilesPerDrivingDay weekdayDrivingDaysPerWeek weekendMilesTotal : ℚ)
    (homeLevel : HomeLevel)
    (weekdayOvernightHours weekendOvernightHours : ℚ)
    (l1MilesPerHour l2MilesPerHour : ℚ)
    (weekdayNightsPluggedIn weekendNightsPluggedIn : ℚ) : ChargePlan :=
  let mph := if homeLevel = HomeLevel.L1 then l1MilesPerHour else l2MilesPerHour
  let weekdayOvernightMiles := mph * weekdayOvernightHours
  let weekendOvernightMiles := mph * weekendOvernightHours
  let weekdayNeed := weekdayMilesPerDrivingDay * weekdayDrivingDaysPerWeek
  let weeklyNeed := weekdayNeed + weekendMilesTotal
  let theoreticalSupply :=
    weekdayOvernightMiles * weekdayNightsPluggedIn +
    weekendOvernightMiles * weekendNightsPluggedIn
  let weeklyHomeSupply := min weeklyNeed theoreticalSupply
  let weeklyShortfall := max 0 (weeklyNeed - weeklyHomeSupply)
  { mph := round mph
    weeklyNeed := round weeklyNeed
    weeklyHomeSupply := round weeklyHomeSupply
    weeklyShortfall := round weeklyShortfall }

/-- Variant of `calcChargePlan` with every optional argument at its source default. -/
def calcChargePlanDefaults
    (weekdayMilesPerDrivingDay weekdayDrivingDaysPerWeek weekendMilesTotal : ℚ)
    (homeLevel : HomeLevel) : ChargePlan :=
  calcChargePlan weekdayMilesPerDrivingDay weekdayDrivingDaysPerWeek
    weekendMilesTotal homeLevel 9 16 4 25 5 2

/-- Source function `calcFastChargeSessionsForShortfall` from
`src/src/components/EVReadyWizard.tsx` (positional-argument form; the
options-object form in `src/unnamed/part_001` computes identically).
`reserveMiles` defaults to `10` in the source. -/
def calcFastChargeSessionsForShortfall
    (weeklyShortfallMiles fullRangeMiles reserveMiles : ℚ) : ℤ :=
  let usablePerSession := max 1 (fullRangeMiles - reserveMiles)
  if weeklyShortfallMiles ≤ 0 then 0
  else ⌈weeklyShortfallMiles / usablePerSession⌉

/-- Source function `calcOvernightMiles` from `src/src/components/EVReadyWizard.tsx`
(lines 116–125): the charger level selects a miles-per-hour rate which is
multiplied by the overnight hours.  Source defaults: `overnightHours = 9`,
`l1MilesPerHour = 4`, `l2MilesPerHour = 25` (see
`calcOvernightMilesDefaults`). -/
def calcOvernightMiles (homeLevel : HomeLevel)
    (overnightHours l1MilesPerHour l2MilesPerHour : ℚ) : ℚ :=
  let mph := if homeLevel = HomeLevel.L1 then l1MilesPerHour else l2MilesPerHour
  mph * overnightHours

/-- Variant of `calcOvernightMiles` with every optional argument at its default. -/
def calcOvernightMilesDefaults (homeLevel : HomeLevel) : ℚ :=
  calcOvernightMiles homeLevel 9 4 25

/-- Advisory card returned by the `result` memo of the schedule-based
wizard variant (no `note` field). -/
structure ResultCard where
  badge : String
  title : String
  color : String
  subtitle : String
  body : String
deriving DecidableEq, Repr

/-- Advisory card of the `part_002` wizard variant (adds a cold-weather
`note`). -/
structure ResultCardB where
  badge : String
  title : String
  color : String
  subtitle : String
  body : String
  note : String
deriving DecidableEq, Repr

/-- The `result` memo of the first (schedule-based) variant in
`src/src/components/EVReadyWizard.tsx`, lines 274–341: canned advisory
from `canPlug`, `level` and `milesPerDay` bands. -/
def resultA (canPlug : Option PlugAns) (level : Option HomeLevel)
    (milesPerDay : ℚ) : Option ResultCard :=
  if canPlug = some PlugAns.no then
    some { badge := "LEVEL 0"
           title := "⚠️ Not Ready Yet"
           color := "text-red-400"
           subtitle := "No overnight plug = high friction risk."
           body := "Before buying, secure a consistent charging anchor: home parking access, workplace charging, or a reliable Level 2 near your routine." }
  else if canPlug ≠ some PlugAns.yes ∨ level = none then none
  else if level = some HomeLevel.L1 then
    if milesPerDay ≤ 50 then
      some { badge := "READY (L1)"
             title := "✅ EV Ready (Level 1 works)"
             color := "text-green-300"
             subtitle := "Your driving fits overnight Level 1 charging."
             body := "If you can plug in 8–10 hours overnight, Level 1 can cover most of your routine." }
    else if milesPerDay ≤ 120 then
      some { badge := "READY + PLAN"
             title := "🟠 EV Ready (with a plan)"
             color := "text-orange-300"
             subtitle := "Level 1 is doable, but you’ll need support charging."
             body := "You’ll likely need occasional fast charging OR plug in where you go (work/errands) to stay comfortable." }
    else
      some { badge := "FAST-CHARGE DEPENDENT"
             title := "🚨 High Friction Risk (Level 1)"
             color := "text-red-400"
             subtitle := "Level 1 won’t keep up with this driving pattern."
             body := "At this mileage, you’ll depend on fast charging frequently unless you upgrade to Level 2." }
  else if level = some HomeLevel.L2 then
    if milesPerDay ≤ 200 then
      some { badge := "LEVEL 3"
             title := "✅ EV Ready"
             color := "text-green-300"
             subtitle := "Level 2 + your driving pattern is a strong fit."
             body := "Overnight Level 2 turns charging into an appliance-like routine: drive → park → plug → repeat." }
    else
      some { badge := "LEVEL 2+"
             title := "✅ Likely Ready (with planning)"
             color := "text-yellow-300"
             subtitle := "You’re driving a lot—have backups for heavy weeks."
             body := "You’ll want a dependable fast-charge fallback for heavy days and road trips. Reliability matters more than speed." }
  else none

/-- The cold-weather note string of `src/unnamed/part_002` (verbatim,
including its mojibake bytes). -/
def coldWeatherNote : String :=
  "Cold Weather Considerations: Be aware that electric car range can decrease by 15‚Äì30% in cold winter conditions."

/-- The `result` memo of the `src/unnamed/part_002` variant (lines
190–265): Level-2 advisories band on `weekdayMilesPerDay`, Level-1
advisories band on `fastChargeSessions`.  String literals are kept
verbatim (the source file contains mojibake). -/
def resultB (canPlug : Option PlugAns) (level : Option HomeLevel)
    (weekdayMilesPerDay : ℚ) (fastChargeSessions : ℤ) : Option ResultCardB :=
  if canPlug = some PlugAns.no then
    some { badge := "LEVEL 0"
           title := "‚ö†Ô∏è Not Ready Yet"
           color := "text-red-400"
           subtitle := "No overnight plug = high friction risk."
           body := "Before buying, secure a consistent charging anchor: home parking access, workplace charging, or a reliable Level 2 near your routine."
           note := coldWeatherNote }
  else if canPlug ≠ some PlugAns.yes ∨ level = none then none
  else if level = some HomeLevel.L2 then
    if weekdayMilesPerDay ≤ 200 then
      some { badge := "LEVEL 3"
             title := "‚úÖ EV Ready"
             color := "text-green-300"
             subtitle := "Level 2 + a normal weekday routine is a strong fit."
             body := "Overnight Level 2 turns charging into an appliance-like routine."
             note := coldWeatherNote }
    else
      some { badge := "LEVEL 2+"
             title := "‚úÖ Likely Ready (with planning)"
             color := "text-yellow-300"
             subtitle := "You‚Äôre driving a lot‚Äîhave backups for heavy weeks."
             body := "You‚Äôll want a dependable fast-charge fallback for heavy days and road trips."
             note := coldWeatherNote }
  else if level = some HomeLevel.L1 then
    if fastChargeSessions ≤ 1 then
      some { badge := "READY (L1)"
             title := "‚úÖ EV Ready (Level 1 works)"
             color := "text-green-300"
             subtitle := "Your routine is light enough for Level 1."
             body := "You can expect about 1 fast-charge session per week (or less). Keep a backup charger bookmarked for busy days."
             note := coldWeatherNote }
    else if fastChargeSessions = 2 then
      some { badge := "READY + PLAN"
             title := "üü† EV Ready (with a plan)"
             color := "text-orange-300"
             subtitle := "Level 1 can work, but you‚Äôll need backup charging."
             body := "Plan for about " ++ toString fastChargeSessions ++ " fast-charge session(s) per week. During heavier weeks, that could increase to " ++ toString (fastChargeSessions + 1) ++ "."
             note := coldWeatherNote }
    else
      some { badge := "FAST-CHARGE DEPENDENT"
             title := "üö® Fast Charge Dependent (Level 1)"
             color := "text-red-400"
             subtitle := "Level 1 won‚Äôt keep up with this pattern."
             body := "At this mileage, you‚Äôll depend on fast charging frequently ‚Äî about " ++ toString fastChargeSessions ++ " session(s) per week ‚Äî unless you upgrade to Level 2."
             note := coldWeatherNote }
  else none

/-- The `plan` memo of the `src/unnamed/part_002` component: with no
overnight plug the home supply is 0 and the shortfall is the whole weekly
need; with a plug and a chosen level it calls `calcChargePlan` with
`weekdayChargeHours = 9` and nights 5/2; otherwise `null`. -/
def variantB_plan (canPlug : Option PlugAns) (level : Option HomeLevel)
    (weekdayMilesPerDay weekdayDrivingDays weekendMiles weekendChargeHours : ℚ) :
    Option ChargePlan :=
  let weeklyNeed := weekdayMilesPerDay * weekdayDrivingDays + weekendMiles
  match canPlug, level with
  | some PlugAns.no, _ =>
      some { mph := 0
             weeklyNeed := round weeklyNeed
             weeklyHomeSupply := 0
             weeklyShortfall := round weeklyNeed }
  | some PlugAns.yes, some l =>
      some (calcChargePlan weekdayMilesPerDay weekdayDrivingDays weekendMiles
        l 9 weekendChargeHours 4 25 5 2)
  | _, _ => none

/-- The `fastChargeSessions` value of the `src/unnamed/part_002`
component: `plan ? calcFastChargeSessionsForShortfall(plan.weeklyShortfall,
fullRange, reserveMiles) : 0` with `reserveMiles = 10`. -/
def variantB_fastChargeSessions (canPlug : Option PlugAns)
    (level : Option HomeLevel)
    (weekdayMilesPerDay weekdayDrivingDays weekendMiles weekendChargeHours
      fullRange : ℚ) : ℤ :=
  match variantB_plan canPlug level weekdayMilesPerDay weekdayDrivingDays
      weekendMiles weekendChargeHours with
  | some p => calcFastChargeSessionsForShortfall (p.weeklyShortfall : ℚ)
      fullRange 10
  | none => 0

/-- End-to-end advisory of the `src/unnamed/part_002` component: the
`result` memo fed with the `fastChargeSessions` value computed by the
component itself. -/
def variantB_result (canPlug : Option PlugAns) (level : Option HomeLevel)
    (weekdayMilesPerDay weekdayDrivingDays weekendMiles weekendChargeHours
      fullRange : ℚ) : Option ResultCardB :=
  resultB canPlug level weekdayMilesPerDay
    (variantB_fastChargeSessions canPlug level weekdayMilesPerDay
      weekdayDrivingDays weekendMiles weekendChargeHours fullRange)

/-- The `result` memo of the `src/unnamed/part_003` variant (lines
169–244): `routineMiles` bands for L1, fallthrough `≤ 200` band for L2.
String literals kept verbatim (mojibake included). -/
def resultD (canPlug : Option PlugAns) (level : Option HomeLevel)
    (routineMiles : ℚ) : Option ResultCard :=
  if canPlug = some PlugAns.no then
    some { badge := "LEVEL 0"
           title := "‚ö†Ô∏è Not Ready Yet"
           color := "text-red-400"
           subtitle := "No overnight plug = high friction risk."
           body := "Before buying, secure a consistent charging anchor: home parking access, workplace charging, or a reliable Level 2 near your routine." }
  else if canPlug ≠ some PlugAns.yes ∨ level = none then none
  else if level = some HomeLevel.L1 then
    if routineMiles ≤ 50 then
      some { badge := "READY (L1)"
             title := "‚úÖ EV Ready (Level 1 works)"
             color := "text-green-300"
             subtitle := "Your weekday routine fits Level 1."
             body := "With a consistent plug, Level 1 can cover most low-mileage routines." }
    else if routineMiles ≤ 120 then
      some { badge := "READY + PLAN"
             title := "üü† EV Ready (with a plan)"
             color := "text-orange-300"
             subtitle := "Level 1 can work, but you‚Äôll need backup charging."
             body := "Expect occasional fast charging or public/work Level 2 when you have heavier weeks." }
    else
      some { badge := "FAST-CHARGE DEPENDENT"
             title := "üö® High Friction Risk (Level 1)"
             color := "text-red-400"
             subtitle := "Level 1 won‚Äôt keep up with this weekday pattern."
             body := "At this mileage, you‚Äôll depend on fast charging frequently unless you upgrade to Level 2." }
  else if routineMiles ≤ 200 then
    some { badge := "LEVEL 3"
           title := "‚úÖ EV Ready"
           color := "text-green-300"
           subtitle := "Level 2 + a normal weekday routine is a strong fit."
           body := "Overnight Level 2 turns charging into an appliance-like routine." }
  else
    some { badge := "LEVEL 2+"
           title := "‚úÖ Likely Ready (with planning)"
           color := "text-yellow-300"
           subtitle := "You‚Äôre driving a lot‚Äîhave backups for heavy weeks."
           body := "You‚Äôll want a dependable fast-charge fallback for heavy days and road trips." }

/-! Section: the wizard step machine (schedule-based variant). -/

/-- The `Step` union type of the schedule-based variant. -/
inductive Step where
  | Q1
  | Q2
  | MILES
  | RESULT
deriving DecidableEq, Repr

/-- The step-relevant component state: current step, plug answer, level. -/
structure WState where
  step : Step
  canPlug : Option PlugAns
  level : Option HomeLevel
deriving DecidableEq, Repr

/-- Initial state: `useState("Q1")`, `useState(null)`, `useState(null)`. -/
def initW : WState :=
  { step := Step.Q1, canPlug := none, level := none }

/-- The user actions that change `step`, excluding Reset: the two answer
buttons, the Q2 Back button, and the MILES / RESULT navigation buttons. -/
inductive Act where
  | q1 (ans : PlugAns)
  | q2 (ans : HomeLevel)
  | backQ2
  | showResult
  | changePlug
  | adjust
deriving DecidableEq, Repr

/-- One step of the wizard: each action is enabled only on the screen
that renders its button, mirroring `onQ1`, `onQ2`, the Q2 `← Back`
button, `Show my result`, `← Change plug type` and
`← Adjust my inputs` (`setStep(level ? "MILES" : "Q2")`). -/
def next (s : WState) (a : Act) : Option WState :=
  match a, s.step with
  | Act.q1 ans, Step.Q1 =>
      if ans = PlugAns.no then
        some { s with canPlug := some ans, step := Step.RESULT }
      else
        some { s with canPlug := some ans, step := Step.Q2 }
  | Act.q2 ans, Step.Q2 =>
      some { s with level := some ans, step := Step.MILES }
  | Act.backQ2, Step.Q2 => some { s with step := Step.Q1 }
  | Act.showResult, Step.MILES => some { s with step := Step.RESULT }
  | Act.changePlug, Step.MILES => some { s with step := Step.Q2 }
  | Act.adjust, Step.RESULT =>
      some { s with step := if s.level = none then Step.Q2 else Step.MILES }
  | _, _ => none

/-- Run a sequence of user actions; `none` if some action is not enabled. -/
def runW (s : WState) : List Act → Option WState
  | [] => some s
  | a :: rest =>
      match next s a with
      | some t => runW t rest
      | none => none

/-- Position of a step in the forward sequence Q1 → Q2 → MILES → RESULT. -/
def stepIdx : Step → ℕ
  | Step.Q1 => 0
  | Step.Q2 => 1
  | Step.MILES => 2
  | Step.RESULT => 3

/-- The forward actions: question answers and `Show my result` (the Back,
`Change plug type` and `Adjust my inputs` buttons are backward). -/
def isForward : Act → Bool
  | Act.q1 _ => true
  | Act.q2 _ => true
  | Act.showResult => true
  | Act.backQ2 => false
  | Act.changePlug => false
  | Act.adjust => false

/-! Section: the weekly schedule simulators. -/

/-- Source function `clampNonNeg` from `src/src/components/EVReadyWizard.tsx`:
`Math.max(0, Math.round(n))`. -/
def clampNonNeg (n : ℚ) : ℤ :=
  max 0 (round n)

/-- Record `DayRow` of the source.  The four clamped fields are integers; the raw
echo fields stay rational. -/
structure DayRow where
  dayIndex : ℕ
  label : String
  startingMiles : ℤ
  oneWayMiles : ℚ
  returnMiles : ℚ
  didFastCharge : Bool
  fastChargeMiles : ℚ
  remainingMiles : ℤ
  overnightChargeMiles : ℤ
  nextStartingMiles : ℤ
deriving DecidableEq, Repr

/-- Constant `DAY_LABELS` of the source. -/
def DAY_LABELS : List String :=
  ["Mon", "Tue", "Wed", "Thu", "Fri", "Sat", "Sun"]

/-- Loop body of `calcEvSchedule` (lines 40–100 of
`src/src/components/EVReadyWizard.tsx`), with the running day index and
starting miles threaded explicitly. -/
def calcEvScheduleGo
    (oneWayMiles returnMiles fullRangeMiles overnightChargeMiles
      reserveMiles : ℚ) (fastChargeDays : List ℕ) :
    ℕ → ℕ → ℚ → List DayRow
  | 0, _, _ => []
  | togo + 1, i, startingMiles =>
      let label := DAY_LABELS.getD (i % 7) ""
      let didFastCharge := fastChargeDays.contains i
      let fastChargeMiles := if didFastCharge then fullRangeMiles else 0
      let remainingRaw :=
        if didFastCharge then fullRangeMiles - returnMiles
        else startingMiles - (oneWayMiles + returnMiles)
      let remainingMiles := clampNonNeg (remainingRaw - reserveMiles)
      let nextStartingMiles :=
        clampNonNeg ((remainingMiles : ℚ) + overnightChargeMiles)
      { dayIndex := i
        label := label
        startingMiles := clampNonNeg startingMiles
        oneWayMiles := oneWayMiles
        returnMiles := returnMiles
        didFastCharge := didFastCharge
        fastChargeMiles := fastChargeMiles
        remainingMiles := remainingMiles
        overnightChargeMiles := clampNonNeg overnightChargeMiles
        nextStartingMiles := nextStartingMiles } ::
      calcEvScheduleGo oneWayMiles returnMiles fullRangeMiles
        overnightChargeMiles reserveMiles fastChargeDays togo (i + 1)
        (nextStartingMiles : ℚ)

/-- Source function `calcEvSchedule`: generate `days` rows starting from
`initialStartingMiles`. -/
def calcEvSchedule (days : ℕ)
    (initialStartingMiles oneWayMiles returnMiles fullRangeMiles
      overnightChargeMiles reserveMiles : ℚ)
    (fastChargeDays : List ℕ) : List DayRow :=
  calcEvScheduleGo oneWayMiles returnMiles fullRangeMiles
    overnightChargeMiles reserveMiles fastChargeDays days 0
    initialStartingMiles

/-- Return value of `simulateWeek`. -/
structure SimResult where
  rows : List DayRow
  fullResetsPerWeek : ℕ
  weeklyMilesDriven : ℚ
  reserveFloorHits : ℕ
  endingMiles : ℤ
deriving DecidableEq, Repr

/-- The `perDayMiles` plan of `simulateWeek`: the first
`weekdayDriveDays` weekdays carry `weekdayMilesPerDay`, the first
`weekendDriveDays` weekend days carry `weekendMilesPerDay`, the rest 0. -/
def simulateWeekPerDayMiles (weekdayMilesPerDay : ℚ)
    (weekdayDriveDays : ℕ) (weekendMilesPerDay : ℚ)
    (weekendDriveDays : ℕ) (i : ℕ) : ℚ :=
  if i < 5 then
    if i < weekdayDriveDays then weekdayMilesPerDay else 0
  else
    if i - 5 < weekendDriveDays then weekendMilesPerDay else 0

/-- Loop body of `simulateWeek` (lines 1310–1407 of
`src/src/components/EVReadyWizard.tsx`): round-trip split by
`Math.round(dayMiles / 2)`, fast charge only on driving days, weekday vs
weekend overnight miles. -/
def simulateWeekGo (fullRangeMiles reserveMiles : ℚ)
    (perDayMiles : ℕ → ℚ)
    (overnightWeekdayMiles overnightWeekendMiles : ℚ)
    (fastChargeDays : List ℕ) : ℕ → ℕ → ℚ → List DayRow
  | 0, _, _ => []
  | togo + 1, i, startingMiles =>
      let label := DAY_LABELS.getD i ""
      let dayMiles := perDayMiles i
      let oneWayMiles : ℤ := round (dayMiles / 2)
      let returnMiles := dayMiles - oneWayMiles
      let isDrivingDay : Bool := decide (0 < dayMiles)
      let wantsFastCharge := fastChargeDays.contains i
      let didFastCharge := isDrivingDay && wantsFastCharge
      let fastChargeMiles := if didFastCharge then fullRangeMiles else 0
      let remainingRaw :=
        if didFastCharge then fullRangeMiles - returnMiles
        else startingMiles - ((oneWayMiles : ℚ) + returnMiles)
      let remainingMiles := clampNonNeg (remainingRaw - reserveMiles)
      let overnightChargeMiles :=
        clampNonNeg
          (if i < 5 then overnightWeekdayMiles else overnightWeekendMiles)
      let nextStartingMiles :=
        clampNonNeg ((remainingMiles : ℚ) + (overnightChargeMiles : ℚ))
      { dayIndex := i
        label := label
        startingMiles := clampNonNeg startingMiles
        oneWayMiles := (oneWayMiles : ℚ)
        returnMiles := returnMiles
        didFastCharge := didFastCharge
        fastChargeMiles := fastChargeMiles
        remainingMiles := remainingMiles
        overnightChargeMiles := overnightChargeMiles
        nextStartingMiles := nextStartingMiles } ::
      simulateWeekGo fullRangeMiles reserveMiles perDayMiles
        overnightWeekdayMiles overnightWeekendMiles fastChargeDays togo
        (i + 1) (nextStartingMiles : ℚ)

/-- Source function `simulateWeek`: seven rows starting from a full battery, plus the
summary statistics computed from them. -/
def simulateWeek (fullRangeMiles reserveMiles weekdayMilesPerDay : ℚ)
    (weekdayDriveDays : ℕ) (weekendMilesPerDay : ℚ)
    (weekendDriveDays : ℕ)
    (overnightWeekdayMiles overnightWeekendMiles : ℚ)
    (fastChargeDays : List ℕ) : SimResult :=
  let rows := simulateWeekGo fullRangeMiles reserveMiles
    (simulateWeekPerDayMiles weekdayMilesPerDay weekdayDriveDays
      weekendMilesPerDay weekendDriveDays)
    overnightWeekdayMiles overnightWeekendMiles fastChargeDays 7 0
    fullRangeMiles
  { rows := rows
    fullResetsPerWeek := (rows.filter (fun r => r.didFastCharge)).length
    weeklyMilesDriven :=
      weekdayMilesPerDay * weekdayDriveDays +
      weekendMilesPerDay * weekendDriveDays
    reserveFloorHits :=
      (rows.filter (fun r =>
        decide (r.remainingMiles = 0) &&
        decide ((0 : ℚ) < r.oneWayMiles + r.returnMiles))).length
    endingMiles :=
      ((rows.get? 6).map (fun r => r.nextStartingMiles)).getD 0 }

end EVReady

namespace EVReady

/-- Rounding a `ℚ` that is an integer cast gives that integer. -/
theorem round_eq_of_eq_intCast {x : ℚ} {n : ℤ} (h : x = (n : ℚ)) :
    round x = n := by rw [h, round_intCast]

/-- On `ℤ`, the clamped shortfall `max 0 (a - min a b)` vanishes exactly
when the supply `b` covers the need `a`. -/
theorem max_zero_sub_min_eq_zero_iff (a b : ℤ) :
    max 0 (a - min a b) = 0 ↔ a ≤ b := by
  rcases le_total a b with h | h
  · rw [min_eq_left h, sub_self]
    simp [h]
  · rw [min_eq_right h, max_eq_right (sub_nonneg.2 h), sub_eq_zero]
    exact ⟨fun e => e.le, fun e => le_antisymm e h⟩

/-- Core computation of `calcChargePlan` on integer inputs, with the
selected charge rate abstracted as `r`. -/
theorem calcChargePlan_core
    (m d w hWk hWe nWk nWe r : ℤ) (l1 l2 : ℚ) (lvl : HomeLevel)
    (hr : (if lvl = HomeLevel.L1 then l1 else l2) = (r : ℚ)) :
    (calcChargePlan (m : ℚ) d w lvl hWk hWe l1 l2 nWk nWe).weeklyNeed
        = m * d + w ∧
    (calcChargePlan (m : ℚ) d w lvl hWk hWe l1 l2 nWk nWe).weeklyHomeSupply
        = min (m * d + w) (r * hWk * nWk + r * hWe * nWe) ∧
    (calcChargePlan (m : ℚ) d w lvl hWk hWe l1 l2 nWk nWe).weeklyShortfall
        = max 0 (m * d + w
            - min (m * d + w) (r * hWk * nWk + r * hWe * nWe)) := by
  refine ⟨?_, ?_, ?_⟩ <;>
  · simp only [calcChargePlan, hr]
    apply round_eq_of_eq_intCast
    push_cast
    ring_nf

/-- C1: `calcChargePlan` returns `weeklyNeed = m*d + w`,
`weeklyHomeSupply = min weeklyNeed theoreticalSupply` where
`theoreticalSupply` sums, over weekday and weekend nights, the per-night
overnight miles times the nights plugged in, and
`weeklyShortfall = max 0 (weeklyNeed - weeklyHomeSupply)`; the shortfall
is never negative and vanishes exactly when the theoretical supply covers
the weekly need.  Stated over the integer input domain of the UI sliders. -/
theorem calcChargePlan_spec
    (m d w hWk hWe l1 l2 nWk nWe : ℤ) (lvl : HomeLevel) :
    (calcChargePlan (m : ℚ) d w lvl hWk hWe l1 l2 nWk nWe).weeklyNeed
        = m * d + w ∧
    (calcChargePlan (m : ℚ) d w lvl hWk hWe l1 l2 nWk nWe).weeklyHomeSupply
        = min (m * d + w)
          ((if lvl = HomeLevel.L1 then l1 else l2) * hWk * nWk +
           (if lvl = HomeLevel.L1 then l1 else l2) * hWe * nWe) ∧
    (calcChargePlan (m : ℚ) d w lvl hWk hWe l1 l2 nWk nWe).weeklyShortfall
        = max 0 (m * d + w - min (m * d + w)
          ((if lvl = HomeLevel.L1 then l1 else l2) * hWk * nWk +
           (if lvl = HomeLevel.L1 then l1 else l2) * hWe * nWe)) ∧
    0 ≤ (calcChargePlan (m : ℚ) d w lvl hWk hWe l1 l2 nWk nWe).weeklyShortfall ∧
    ((calcChargePlan (m : ℚ) d w lvl hWk hWe l1 l2 nWk nWe).weeklyShortfall = 0
      ↔ m * d + w ≤
          (if lvl = HomeLevel.L1 then l1 else l2) * hWk * nWk +
          (if lvl = HomeLevel.L1 then l1 else l2) * hWe * nWe) := by
  have hr : (if lvl = HomeLevel.L1 then (l1 : ℚ) else (l2 : ℚ))
      = (((if lvl = HomeLevel.L1 then l1 else l2 : ℤ)) : ℚ) := by
    cases lvl <;> simp
  obtain ⟨h1, h2, h3⟩ :=
    calcChargePlan_core m d w hWk hWe nWk nWe
      (if lvl = HomeLevel.L1 then l1 else l2) l1 l2 lvl hr
  refine ⟨h1, h2, h3, ?_, ?_⟩
  · rw [h3]
    exact le_max_left _ _
  · rw [h3]
    exact max_zero_sub_min_eq_zero_iff _ _

/-- C2: `calcFastChargeSessionsForShortfall` returns `0` on a
non-positive shortfall, and otherwise the ceiling of the shortfall
divided by the usable range per session `max 1 (fullRange - reserve)`. -/
theorem calcFastChargeSessionsForShortfall_spec
    (s r v : ℚ) :
    (s ≤ 0 → calcFastChargeSessionsForShortfall s r v = 0) ∧
    (0 < s → calcFastChargeSessionsForShortfall s r v
        = ⌈s / max 1 (r - v)⌉) := by
  constructor
  · intro h
    simp [calcFastChargeSessionsForShortfall, h]
  · intro h
    simp [calcFastChargeSessionsForShortfall, not_le.2 h]

/-- Witness for `calcFastChargeSessionsForShortfall_spec`: a non-positive
shortfall yields `0` sessions; a shortfall of `500` miles against usable
range `250` yields `⌈500/250⌉ = 2` sessions. -/
theorem calcFastChargeSessionsForShortfall_spec_witness :
    calcFastChargeSessionsForShortfall (-5) 260 10 = 0 ∧
    calcFastChargeSessionsForShortfall 500 260 10 = ⌈(500 : ℚ) / max 1 (260 - 10)⌉ :=
  ⟨(calcFastChargeSessionsForShortfall_spec (-5) 260 10).1 (by norm_num),
   (calcFastChargeSessionsForShortfall_spec 500 260 10).2 (by norm_num)⟩

/-- C3: the worked example of the spec: 140 miles per driving day over 5
driving days and no weekend miles gives a weekly need of 700; with Level 2
home charging at 25 miles/hour for 9 overnight hours the weekday-night
supply `25 * 9 * 5 = 1125` alone covers the need (even with zero weekend
nights plugged in), so the shortfall is 0.  Shown both with the source
defaults and with the weekend supply switched off. -/
theorem calcChargePlan_workedExample :
    (calcChargePlanDefaults 140 5 0 HomeLevel.L2).weeklyNeed = 700 ∧
    (calcChargePlanDefaults 140 5 0 HomeLevel.L2).weeklyShortfall = 0 ∧
    (calcChargePlan 140 5 0 HomeLevel.L2 9 16 4 25 5 0).weeklyNeed = 700 ∧
    (25 : ℚ) * 9 * 5 = 1125 ∧ (700 : ℚ) ≤ 1125 ∧
    (calcChargePlan 140 5 0 HomeLevel.L2 9 16 4 25 5 0).weeklyShortfall = 0 := by
  refine ⟨?_, ?_, ?_, by norm_num, by norm_num, ?_⟩ <;>
  · simp only [calcChargePlanDefaults, calcChargePlan, reduceCtorEq,
      if_false, ite_false]
    norm_num [min_def, max_def, round_eq, Int.floor_eq_iff]

/-- C8: `calcFastChargeSessionsForShortfall` is total and safe: the
divisor is clamped to at least 1, the result is never negative, and every
positive shortfall yields at least one session. -/
theorem calcFastChargeSessionsForShortfall_safe
    (s r v : ℚ) :
    (1 : ℚ) ≤ max 1 (r - v) ∧
    0 ≤ calcFastChargeSessionsForShortfall s r v ∧
    (0 < s → 1 ≤ calcFastChargeSessionsForShortfall s r v) := by
  have hu : (0 : ℚ) < max 1 (r - v) :=
    lt_of_lt_of_le zero_lt_one (le_max_left _ _)
  have key : 0 < s → 1 ≤ calcFastChargeSessionsForShortfall s r v := by
    intro hs
    simp only [calcFastChargeSessionsForShortfall, not_le.2 hs, if_false]
    have hq : (0 : ℚ) < s / max 1 (r - v) := div_pos hs hu
    have := Int.ceil_pos.2 hq
    omega
  refine ⟨le_max_left _ _, ?_, key⟩
  by_cases h : s ≤ 0
  · simp [calcFastChargeSessionsForShortfall, h]
  · exact le_trans zero_le_one (key (not_le.1 h))

/-- Witness for `calcFastChargeSessionsForShortfall_safe` at a concrete
positive shortfall. -/
theorem calcFastChargeSessionsForShortfall_safe_witness :
    (1 : ℚ) ≤ max 1 ((260 : ℚ) - 10) ∧
    0 ≤ calcFastChargeSessionsForShortfall 412 260 10 ∧
    1 ≤ calcFastChargeSessionsForShortfall 412 260 10 :=
  ⟨(calcFastChargeSessionsForShortfall_safe 412 260 10).1,
   (calcFastChargeSessionsForShortfall_safe 412 260 10).2.1,
   (calcFastChargeSessionsForShortfall_safe 412 260 10).2.2 (by norm_num)⟩

/-- C4: in the schedule-based wizard variant, with `canPlug = yes` and
a chosen level the advisory badge is determined solely by the
`milesPerDay` bands: L1 gives `READY (L1)` iff `milesPerDay ≤ 50`,
`READY + PLAN` iff `50 < milesPerDay ≤ 120` and `FAST-CHARGE DEPENDENT`
otherwise; L2 gives `LEVEL 3` iff `milesPerDay ≤ 200` and `LEVEL 2+`
otherwise; and with `canPlug = no` the badge is always `LEVEL 0`. -/
theorem resultA_bands (m : ℚ) :
    ((resultA (some PlugAns.yes) (some HomeLevel.L1) m).map ResultCard.badge
        = some "READY (L1)" ↔ m ≤ 50) ∧
    ((resultA (some PlugAns.yes) (some HomeLevel.L1) m).map ResultCard.badge
        = some "READY + PLAN" ↔ 50 < m ∧ m ≤ 120) ∧
    ((resultA (some PlugAns.yes) (some HomeLevel.L1) m).map ResultCard.badge
        = some "FAST-CHARGE DEPENDENT" ↔ 120 < m) ∧
    ((resultA (some PlugAns.yes) (some HomeLevel.L2) m).map ResultCard.badge
        = some "LEVEL 3" ↔ m ≤ 200) ∧
    ((resultA (some PlugAns.yes) (some HomeLevel.L2) m).map ResultCard.badge
        = some "LEVEL 2+" ↔ 200 < m) ∧
    (∀ lvl : Option HomeLevel,
      (resultA (some PlugAns.no) lvl m).map ResultCard.badge
        = some "LEVEL 0") := by
  by_cases h1 : m ≤ 50 <;> by_cases h2 : m ≤ 120 <;> by_cases h3 : m ≤ 200 <;>
    simp [resultA, h1, h2, h3] <;>
    first
      | linarith
      | (constructor <;> linarith)

/-- C5: `calcOvernightMiles` multiplies the level-selected rate by the
overnight hours; with the default rates (4 mph for L1, 25 mph for L2) and
the default 9 overnight hours a Level-2 night yields 225 miles and a
Level-1 night yields 36 miles. -/
theorem calcOvernightMiles_spec :
    (∀ h l1 l2 : ℚ,
      calcOvernightMiles HomeLevel.L1 h l1 l2 = l1 * h ∧
      calcOvernightMiles HomeLevel.L2 h l1 l2 = l2 * h) ∧
    (∀ h : ℚ,
      calcOvernightMiles HomeLevel.L1 h 4 25 = 4 * h ∧
      calcOvernightMiles HomeLevel.L2 h 4 25 = 25 * h) ∧
    calcOvernightMilesDefaults HomeLevel.L2 = 225 ∧
    calcOvernightMilesDefaults HomeLevel.L1 = 36 := by
  refine ⟨fun h l1 l2 => ⟨?_, ?_⟩, fun h => ⟨?_, ?_⟩, ?_, ?_⟩ <;>
    simp [calcOvernightMiles, calcOvernightMilesDefaults] <;> norm_num

/-- C10: whenever the plug question is answered `no`, the advisory is
the fixed `LEVEL 0` / `Not Ready Yet` card in every modelled variant: two
runs that differ in level, miles, driving days, full range, weekend
charge hours or fast-charge session count produce identical result
records. -/
theorem level0_result_constant
    (l1 l2 : Option HomeLevel) (m1 m2 : ℚ) (s1 s2 : ℤ)
    (fr1 fr2 d1 d2 w1 w2 wh1 wh2 : ℚ) :
    resultA (some PlugAns.no) l1 m1 = resultA (some PlugAns.no) l2 m2 ∧
    (resultA (some PlugAns.no) l1 m1).map ResultCard.badge = some "LEVEL 0" ∧
    resultB (some PlugAns.no) l1 m1 s1 = resultB (some PlugAns.no) l2 m2 s2 ∧
    variantB_result (some PlugAns.no) l1 m1 d1 w1 wh1 fr1
      = variantB_result (some PlugAns.no) l2 m2 d2 w2 wh2 fr2 ∧
    resultD (some PlugAns.no) l1 m1 = resultD (some PlugAns.no) l2 m2 := by
  refine ⟨?_, ?_, ?_, ?_, ?_⟩ <;>
    simp [resultA, resultB, resultD, variantB_result]

/-- C7 counterexample: the milesPerDay-banded variant and the
fastChargeSessions-banded variant disagree at a common input: with
`canPlug = yes`, level L1, `weekdayMilesPerDay = 140` and the other
inputs at the `part_002` defaults (`drivingDays = 5`,
`weekendMiles = 20`, `weekendChargeHours = 16`, `fullRange = 260`), the
former assigns `FAST-CHARGE DEPENDENT` while the latter computes a
shortfall of 412 miles, 2 fast-charge sessions, and assigns
`READY + PLAN`. -/
theorem variants_badge_disagree :
    (resultA (some PlugAns.yes) (some HomeLevel.L1) 140).map ResultCard.badge
      = some "FAST-CHARGE DEPENDENT" ∧
    (variantB_result (some PlugAns.yes) (some HomeLevel.L1) 140 5 20 16 260).map
        ResultCardB.badge
      = some "READY + PLAN" ∧
    ¬ (resultA (some PlugAns.yes) (some HomeLevel.L1) 140).map ResultCard.badge
      = (variantB_result (some PlugAns.yes) (some HomeLevel.L1) 140 5 20 16 260).map
          ResultCardB.badge := by
  have hfcs : variantB_fastChargeSessions (some PlugAns.yes)
      (some HomeLevel.L1) 140 5 20 16 260 = 2 := by
    simp only [variantB_fastChargeSessions, variantB_plan, calcChargePlan,
      calcFastChargeSessionsForShortfall, reduceCtorEq, if_false, ite_false]
    norm_num [min_def, max_def, round_eq, Int.floor_eq_iff, Int.ceil_eq_iff]
  have hA : (resultA (some PlugAns.yes) (some HomeLevel.L1) 140).map
      ResultCard.badge = some "FAST-CHARGE DEPENDENT" := by
    simp [resultA]
    norm_num
  have hB : (variantB_result (some PlugAns.yes) (some HomeLevel.L1)
      140 5 20 16 260).map ResultCardB.badge = some "READY + PLAN" := by
    simp only [variantB_result, hfcs]
    simp [resultB]
  refine ⟨hA, hB, ?_⟩
  rw [hA, hB]
  simp

/-- C7 amended: the two variants agree on the advisory badge whenever
`canPlug = no` (both `LEVEL 0`) or the level is L2 (both band
`weekdayMilesPerDay` at 200); only the L1 advisories, banded on different
quantities, can disagree. -/
theorem variants_agree_no_or_L2 (lvl : Option HomeLevel) (m d w wh fr : ℚ) :
    (resultA (some PlugAns.no) lvl m).map ResultCard.badge
      = (variantB_result (some PlugAns.no) lvl m d w wh fr).map
          ResultCardB.badge ∧
    (resultA (some PlugAns.yes) (some HomeLevel.L2) m).map ResultCard.badge
      = (variantB_result (some PlugAns.yes) (some HomeLevel.L2) m d w wh fr).map
          ResultCardB.badge := by
  constructor
  · simp [resultA, variantB_result, resultB]
  · by_cases h : m ≤ 200 <;>
      simp [resultA, variantB_result, resultB, h]

/-- C6 counterexample: a non-Reset action sequence that returns the
wizard to a step it has already visited: answering `yes` on Q1 and then
pressing the Q2 `← Back` button brings the wizard back to step `Q1`,
the step it started on, so the step graph does have cycles. -/
theorem wizard_revisits_step :
    runW initW [Act.q1 PlugAns.yes, Act.backQ2]
      = some { step := Step.Q1, canPlug := some PlugAns.yes, level := none } ∧
    initW.step = Step.Q1 ∧
    ([Act.q1 PlugAns.yes, Act.backQ2] : List Act) ≠ [] := by
  refine ⟨rfl, rfl, by simp⟩

/-- A single enabled forward action strictly advances the step index. -/
theorem next_forward_stepIdx_lt (s : WState) (a : Act) (t : WState)
    (hf : isForward a = true) (hn : next s a = some t) :
    stepIdx s.step < stepIdx t.step := by
  obtain ⟨st, cp, lv⟩ := s
  cases a with
  | q1 ans =>
      cases st <;> simp only [next, Option.some.injEq] at hn
      case Q1 =>
        cases ans <;>
          simp only [reduceCtorEq, reduceIte, Option.some.injEq] at hn <;>
          subst hn <;> norm_num [stepIdx]
      all_goals exact Option.noConfusion hn
  | q2 ans =>
      cases st <;> simp only [next, Option.some.injEq] at hn
      case Q2 =>
        subst hn
        norm_num [stepIdx]
      all_goals exact Option.noConfusion hn
  | showResult =>
      cases st <;> simp only [next, Option.some.injEq] at hn
      case MILES =>
        subst hn
        norm_num [stepIdx]
      all_goals exact Option.noConfusion hn
  | backQ2 => simp [isForward] at hf
  | changePlug => simp [isForward] at hf
  | adjust => simp [isForward] at hf

/-- Along a trace of enabled forward actions the step index never
decreases. -/
theorem runW_forward_stepIdx_le (acts : List Act) (s t : WState)
    (hf : ∀ a ∈ acts, isForward a = true)
    (h : runW s acts = some t) :
    stepIdx s.step ≤ stepIdx t.step := by
  induction acts generalizing s with
  | nil =>
      rw [runW] at h
      cases h
      exact le_refl _
  | cons a rest ih =>
      rw [runW] at h
      cases hn : next s a with
      | none => rw [hn] at h; cases h
      | some u =>
          rw [hn] at h
          have h1 := next_forward_stepIdx_lt s a u (hf a (by simp)) hn
          have h2 := ih u (fun b hb => hf b (by simp [hb])) h
          omega

/-- C6 amended: excluding Reset and the backward buttons (`← Back`,
`← Change plug type`, `← Adjust my inputs`), the forward
transitions of the wizard (`onQ1`, `onQ2`, `Show my result`) strictly advance through
the static sequence Q1 → Q2 → MILES → RESULT: every nonempty enabled
trace of forward actions strictly increases the step index, so no such
trace can return the wizard to a step it has already visited.  (The
backward buttons do create cycles, see `wizard_revisits_step`.) -/
theorem wizard_forward_acyclic (acts : List Act) (s t : WState)
    (hne : acts ≠ [])
    (hf : ∀ a ∈ acts, isForward a = true)
    (h : runW s acts = some t) :
    stepIdx s.step < stepIdx t.step := by
  cases acts with
  | nil => exact absurd rfl hne
  | cons a rest =>
      rw [runW] at h
      cases hn : next s a with
      | none => rw [hn] at h; cases h
      | some u =>
          rw [hn] at h
          have h1 := next_forward_stepIdx_lt s a u (hf a (by simp)) hn
          have h2 := runW_forward_stepIdx_le rest u t
            (fun b hb => hf b (by simp [hb])) h
          omega

/-- Witness for `wizard_forward_acyclic`: answering `yes` on Q1 advances
the step index from Q1 to Q2. -/
theorem wizard_forward_acyclic_witness :
    stepIdx initW.step <
      stepIdx (WState.mk Step.Q2 (some PlugAns.yes) none).step :=
  wizard_forward_acyclic [Act.q1 PlugAns.yes] initW
    (WState.mk Step.Q2 (some PlugAns.yes) none)
    (by simp) (by intro a ha; simp at ha; rw [ha]; rfl) rfl

/-- The clamp `clampNonNeg` is non-negative by construction. -/
theorem clampNonNeg_nonneg (x : ℚ) : 0 ≤ clampNonNeg x :=
  le_max_left 0 _

/-- Every row generated by the `calcEvSchedule` loop has non-negative
clamped fields. -/
theorem calcEvScheduleGo_nonneg
    (ow ret full overnight reserve : ℚ) (fast : List ℕ) :
    ∀ (togo i : ℕ) (s : ℚ) (r : DayRow),
      r ∈ calcEvScheduleGo ow ret full overnight reserve fast togo i s →
      0 ≤ r.startingMiles ∧ 0 ≤ r.remainingMiles ∧
      0 ≤ r.overnightChargeMiles ∧ 0 ≤ r.nextStartingMiles := by
  intro togo
  induction togo with
  | zero =>
      intro i s r hr
      rw [calcEvScheduleGo] at hr
      cases hr
  | succ n ih =>
      intro i s r hr
      rw [calcEvScheduleGo] at hr
      rcases List.mem_cons.1 hr with h | h
      · subst h
        exact ⟨clampNonNeg_nonneg _, clampNonNeg_nonneg _,
          clampNonNeg_nonneg _, clampNonNeg_nonneg _⟩
      · exact ih (i + 1) _ r h

/-- Every row generated by the `simulateWeek` loop has non-negative
clamped fields. -/
theorem simulateWeekGo_nonneg
    (full reserve : ℚ) (perDay : ℕ → ℚ) (owk owe : ℚ) (fast : List ℕ) :
    ∀ (togo i : ℕ) (s : ℚ) (r : DayRow),
      r ∈ simulateWeekGo full reserve perDay owk owe fast togo i s →
      0 ≤ r.startingMiles ∧ 0 ≤ r.remainingMiles ∧
      0 ≤ r.overnightChargeMiles ∧ 0 ≤ r.nextStartingMiles := by
  intro togo
  induction togo with
  | zero =>
      intro i s r hr
      rw [simulateWeekGo] at hr
      cases hr
  | succ n ih =>
      intro i s r hr
      rw [simulateWeekGo] at hr
      rcases List.mem_cons.1 hr with h | h
      · subst h
        exact ⟨clampNonNeg_nonneg _, clampNonNeg_nonneg _,
          clampNonNeg_nonneg _, clampNonNeg_nonneg _⟩
      · exact ih (i + 1) _ r h

/-- C9: every `DayRow` produced by `calcEvSchedule` and by
`simulateWeek` has non-negative integer `startingMiles`,
`remainingMiles`, `overnightChargeMiles` and `nextStartingMiles` (each
passes through `clampNonNeg`), for all inputs including negative or
fractional miles; the starting state of the next day is the clamped
`nextStartingMiles`, so non-negativity is preserved day to day. -/
theorem schedule_rows_nonneg
    (days : ℕ) (init ow ret full overnight reserve : ℚ) (fast : List ℕ)
    (fullR reserveR wm : ℚ) (wd : ℕ) (wem : ℚ) (wed : ℕ)
    (owk owe : ℚ) (fast2 : List ℕ) :
    (∀ r ∈ calcEvSchedule days init ow ret full overnight reserve fast,
      0 ≤ r.startingMiles ∧ 0 ≤ r.remainingMiles ∧
      0 ≤ r.overnightChargeMiles ∧ 0 ≤ r.nextStartingMiles) ∧
    (∀ r ∈ (simulateWeek fullR reserveR wm wd wem wed owk owe fast2).rows,
      0 ≤ r.startingMiles ∧ 0 ≤ r.remainingMiles ∧
      0 ≤ r.overnightChargeMiles ∧ 0 ≤ r.nextStartingMiles) := by
  constructor
  · intro r hr
    exact calcEvScheduleGo_nonneg ow ret full overnight reserve fast
      days 0 init r hr
  · intro r hr
    exact simulateWeekGo_nonneg fullR reserveR
      (simulateWeekPerDayMiles wm wd wem wed) owk owe fast2 7 0 fullR r hr

/-- Witness for `schedule_rows_nonneg`: the single day computed by
`calcEvSchedule 1 100 50 50 260 36 10 []` is the concrete row below and
its clamped fields are non-negative. -/
theorem schedule_rows_nonneg_witness :
    ((0 ≤ (DayRow.mk 0 "Mon" 100 50 50 false 0 0 36 36).startingMiles ∧
      0 ≤ (DayRow.mk 0 "Mon" 100 50 50 false 0 0 36 36).remainingMiles ∧
      0 ≤ (DayRow.mk 0 "Mon" 100 50 50 false 0 0 36 36).overnightChargeMiles ∧
      0 ≤ (DayRow.mk 0 "Mon" 100 50 50 false 0 0 36 36).nextStartingMiles) ∧
     (0 ≤ (DayRow.mk 0 "Mon" 260 0 0 false 0 250 0 250).startingMiles ∧
      0 ≤ (DayRow.mk 0 "Mon" 260 0 0 false 0 250 0 250).remainingMiles ∧
      0 ≤ (DayRow.mk 0 "Mon" 260 0 0 false 0 250 0 250).overnightChargeMiles ∧
      0 ≤ (DayRow.mk 0 "Mon" 260 0 0 false 0 250 0 250).nextStartingMiles)) :=
  ⟨(schedule_rows_nonneg 1 100 50 50 260 36 10 [] 260 10 0 0 0 0 0 0 []).1
    (DayRow.mk 0 "Mon" 100 50 50 false 0 0 36 36)
    (by
      simp only [calcEvSchedule, calcEvScheduleGo, clampNonNeg, DAY_LABELS,
        List.mem_singleton]
      norm_num [round_eq, Int.floor_eq_iff, min_def, max_def]),
   (schedule_rows_nonneg 1 100 50 50 260 36 10 [] 260 10 0 0 0 0 0 0 []).2
    (DayRow.mk 0 "Mon" 260 0 0 false 0 250 0 250)
    (by
      simp only [simulateWeek, simulateWeekGo, simulateWeekPerDayMiles,
        clampNonNeg, DAY_LABELS]
      refine List.mem_cons.2 (Or.inl ?_)
      norm_num [round_eq, Int.floor_eq_iff, min_def, max_def])⟩

end EVReady
